import Mathlib

/-!
# Verification of the heat-pump `SensorHandler`

Shallow embedding of `src/sensor-service/heat-pump/src/sensor-handler.js`
(the per-connection WebSocket subscription handler) together with the parts
of `server.js` it touches (the module-level `sensors` registry).

Modelling conventions:
* JavaScript objects become Lean structures; the shared module-level
  variables (`sensors`, `old_sensors_list`) and the event-loop timer table
  live in a `World` record that every operation threads explicitly.
* `Math.random()` draws are explicit rational parameters `u` with
  `0 ≤ u < 1`; each call site that draws receives its own parameter.
* `setTimeout` appends a `Timer` (fresh id, callback kind, delay in ms) to
  the world's timer table and returns the id; `clearTimeout` removes it.
  Node's `Timeout` objects are always truthy, and the handler resets its
  `#timeout` field to the falsy `0` on unsubscribe, so the private fields
  `#timeout`/`#death` are modelled as `Option Nat` (`none` = falsy).
* A thrown exception (`ValidationError`, `SyntaxError`, `TypeError`) is an
  `Except.error` carrying the message; `onMessage`'s `catch` turns it into
  an `{error}` reply.
* `World.attempts` is a ghost log: every message entering `_send` is
  appended to it, so "a message was produced/dispatched" is `attempts`
  growth, independent of whether the probabilistic send delivered it at
  once (`sent`) or deferred it (a `retry` timer).
-/

/-- A sensor record as stored in the shared `sensors` list of `server.js`:
`{type, name, state, temperature}`. -/
structure SensorRecord where
  type : String
  name : String
  state : Int
  temperature : Int
deriving DecidableEq, Repr

/-- `const ERROR = -1` — the error state forced by the corruption timer. -/
def ERROR : Int := -1

/-- The `list` field of an inbound JSON message: absent (`undefined`),
explicit `null`, or an array of records. JavaScript distinguishes absent
from `null` under the strict `!==` used in `_validateMessage`. -/
inductive ListField
  | absent
  | null
  | present (l : List SensorRecord)
deriving DecidableEq, Repr

/-- A parsed inbound JSON object: `type`, `target` (absent fields are
`none`) and the `list` field. -/
structure InMsg where
  type : Option String
  target : Option String
  list : ListField
deriving DecidableEq, Repr

/-- A raw inbound message as `onMessage` receives it: falsy (`!msg`),
unparsable by `JSON.parse` (which throws `SyntaxError`), or parsed. -/
inductive RawMsg
  | empty
  | unparsable
  | parsed (j : InMsg)
deriving DecidableEq, Repr

/-- An outbound message: `{type:'sensors_list', dateTime, list}`,
`{ack:true}`, or `{error: msg}`. `dateTime` (`DateTime.now().toISO()`) is
modelled as an abstract timestamp. -/
inductive OutMsg
  | sensorsList (dateTime : Nat) (list : List SensorRecord)
  | ack
  | error (msg : String)
deriving DecidableEq, Repr

/-- The pending callbacks a timer can hold: the polling-loop callback, the
corruption callback and the death callback of `_scheduleDeath`, and the
retry closure `() => this._send(msg)` armed by `_send` on a simulated
failure. -/
inductive TimerKind
  | poll
  | corruption
  | death
  | retry (msg : OutMsg)
deriving DecidableEq, Repr

/-- An armed `setTimeout`: its id, its callback, its delay in ms. -/
structure Timer where
  id : Nat
  kind : TimerKind
  delay : ℚ
deriving DecidableEq, Repr

/-- The configuration fields the handler consults: `failures`,
`frequency` (ms), `timeToLive` (s), `errorProb`. -/
structure Config where
  failures : Bool
  frequency : ℚ
  timeToLive : ℚ
  errorProb : ℚ
deriving DecidableEq, Repr

/-- The handler's per-connection private fields: `#timeout` (poll timer
handle), `#death` (latest death-timer handle), `#buffer` (pending outbound
messages). `none` models a falsy handle (`undefined` or `0`). -/
structure Handler where
  timeout : Option Nat
  death : Option Nat
  buffer : List OutMsg
deriving DecidableEq, Repr

/-- Everything outside the handler's private fields: the module-level
`sensors` registry of `server.js`, the module-level `old_sensors_list` of
`sensor-handler.js`, the event loop's armed timers, the next fresh timer
id, the messages written to the WebSocket (`sent`), the ghost log of all
messages entering `_send` (`attempts`), and the `ws.close()` /
`process.exit()` flags. -/
structure World where
  sensors : List SensorRecord
  oldList : List SensorRecord
  timers : List Timer
  nextId : Nat
  sent : List OutMsg
  attempts : List OutMsg
  closed : Bool
  exited : Bool
deriving DecidableEq, Repr

/-- A fresh handler as constructed: empty buffer, no timers armed. -/
def Handler.init : Handler := ⟨none, none, []⟩

/-- `setTimeout(cb, delay)`: arm a timer with a fresh id, return the id. -/
def setTimeout (k : TimerKind) (delay : ℚ) (w : World) : Nat × World :=
  (w.nextId,
   { w with timers := w.timers ++ [⟨w.nextId, k, delay⟩],
            nextId := w.nextId + 1 })

/-- `clearTimeout(id)`: disarm the timer with that id (no-op if absent). -/
def clearTimeout (id : Nat) (w : World) : World :=
  { w with timers := w.timers.filter (fun t => t.id ≠ id) }

instance : DecidableEq (Except String InMsg) := fun a b =>
  match a, b with
  | .ok x, .ok y =>
    if h : x = y then .isTrue (by rw [h]) else .isFalse (by simp [h])
  | .error x, .error y =>
    if h : x = y then .isTrue (by rw [h]) else .isFalse (by simp [h])
  | .ok _, .error _ => .isFalse (by simp)
  | .error _, .ok _ => .isFalse (by simp)

/-- The result of `_validateMessage`, which both returns/throws and may
mutate the shared registry: the parsed message or the thrown exception's
message, together with the registry content after the call. -/
structure ValOutcome where
  result : Except String InMsg
  sensors : List SensorRecord
deriving DecidableEq, Repr

/-- `SensorHandler._validateMessage` (sensor-handler.js:121-139), including
its side effect on the shared `sensors` registry. Checks, in order: falsy
message; `JSON.parse`; `type ∈ {subscribe, unsubscribe}`;
`target === 'heatpump'`; then `if (json.list !== null)` — which is also
true when `list` is absent (`undefined !== null`) — it splices `sensors`
empty and pushes every item of `json.list`; when `list` is absent the
`forEach` on `undefined` throws a `TypeError` after the splice already
emptied the registry. -/
def validateMessage (msg : RawMsg) (sensors : List SensorRecord) : ValOutcome :=
  match msg with
  | .empty => ⟨.error "Invalid inbound message", sensors⟩
  | .unparsable => ⟨.error "SyntaxError: Unexpected token", sensors⟩
  | .parsed j =>
    if j.type ≠ some "subscribe" ∧ j.type ≠ some "unsubscribe" then
      ⟨.error "Invalid message type", sensors⟩
    else if j.target ≠ some "heatpump" then
      ⟨.error "Invalid subscription target", sensors⟩
    else
      match j.list with
      | .null => ⟨.ok j, sensors⟩
      | .absent => ⟨.error "TypeError: json.list is undefined", []⟩
      | .present l => ⟨.ok j, l⟩

/-- `Number.prototype.toFixed(0)` followed by numeric coercion: round to
the nearest integer, ties away from zero (ECMA-262 picks the larger
magnitude `n` for the rounded absolute value, and the sign is applied
afterwards). -/
def jsRound (x : ℚ) : ℤ :=
  if 0 ≤ x then (x + 1/2).floor else -(-x + 1/2).floor

/-- `Rat.floor` agrees with the mathematical floor `⌊·⌋`. -/
theorem ratFloor_eq_intFloor (q : ℚ) : q.floor = ⌊q⌋ := by
  rw [Rat.floor_def', Rat.floor_def]

/-- `jsRound` of a nonnegative rational is `⌊x + 1/2⌋`. -/
theorem jsRound_nonneg_eq (x : ℚ) (hx : 0 ≤ x) : jsRound x = ⌊x + 1/2⌋ := by
  rw [jsRound, if_pos hx, ratFloor_eq_intFloor]

/-- Modelled from the spec: `random.js` (exporting `anIntegerWithPrecision`,
imported by sensor-handler.js:4) is not among the repository's source
files. Per the spec's glossary, `jitter(base, r)` is "a randomized duration
drawn within ±r of `base`"; `u` is the uniform draw in `[0,1)`, so the
result ranges uniformly over `[base·(1-r), base·(1+r))`. -/
def anIntegerWithPrecision (base prec u : ℚ) : ℚ :=
  base * (1 - prec) + u * (2 * prec * base)

/-- `SensorHandler._someMillis` (sensor-handler.js:146-148):
`anIntegerWithPrecision(this.#config.frequency, 0.2)`. -/
def someMillis (cfg : Config) (u : ℚ) : ℚ :=
  anIntegerWithPrecision cfg.frequency (1/5) u

/-- `SensorHandler._send` (sensor-handler.js:177-188). `u` is the
`Math.random()` draw of the failure test, `uJ` the draw consumed by
`_someMillis` when the send is deferred. Every call appends `msg` to the
ghost `attempts` log; then either a retry timer is armed (failure
simulated) or the message is written to the WebSocket. -/
def send (cfg : Config) (u uJ : ℚ) (msg : OutMsg) (w : World) : World :=
  let w := { w with attempts := w.attempts ++ [msg] }
  if cfg.failures ∧ u < cfg.errorProb then
    (setTimeout (.retry msg) (someMillis cfg uJ) w).2
  else
    { w with sent := w.sent ++ [msg] }

/-- The `for (const bMsg of this.#buffer) this._send(bMsg)` loop of
`_sendList`: each `_send` call consumes its own pair of random draws,
supplied by the stream `ds`. -/
def sendAll (cfg : Config) (ds : Nat → ℚ × ℚ) : List OutMsg → World → World
  | [], w => w
  | m :: ms, w =>
    sendAll cfg (fun n => ds (n + 1)) ms (send cfg (ds 0).1 (ds 0).2 m w)

/-- `SensorHandler._sendList` (sensor-handler.js:154-170): build
`{type:'sensors_list', dateTime, list: sensors}`, append it to the buffer,
flush the whole buffer through `_send` in order, clear the buffer. (The
delay-gated branch is commented out in the source: the flush is
unconditional.) -/
def sendList (cfg : Config) (now : Nat) (ds : Nat → ℚ × ℚ)
    (h : Handler) (w : World) : Handler × World :=
  let msg : OutMsg := .sensorsList now w.sensors
  let buf := h.buffer ++ [msg]
  ({ h with buffer := [] }, sendAll cfg ds buf w)

/-- The polling-loop `callback` of `_onSubscribe` (sensor-handler.js:195-202):
if `JSON.stringify(old_sensors_list) !== JSON.stringify(sensors)` (i.e. the
snapshots differ structurally), overwrite the module-level
`old_sensors_list` with a deep copy of `sensors` and call `_sendList`;
in either case re-arm `#timeout` with delay `_someMillis()` (`uR` is that
call's draw, `ds` feeds the flush loop's sends). -/
def pollTick (cfg : Config) (now : Nat) (ds : Nat → ℚ × ℚ) (uR : ℚ)
    (h : Handler) (w : World) : Handler × World :=
  let p :=
    if w.oldList ≠ w.sensors then
      sendList cfg now ds h { w with oldList := w.sensors }
    else (h, w)
  let q := setTimeout .poll (someMillis cfg uR) p.2
  ({ p.1 with timeout := some q.1 }, q.2)

/-- `SensorHandler._onSubscribe` (sensor-handler.js:190-204): if `#timeout`
is truthy, return; otherwise arm the polling callback with zero delay and
store its handle in `#timeout`. -/
def onSubscribe (h : Handler) (w : World) : Handler × World :=
  match h.timeout with
  | some _ => (h, w)
  | none =>
    let q := setTimeout .poll 0 w
    ({ h with timeout := some q.1 }, q.2)

/-- `SensorHandler._onUnsubscribe` (sensor-handler.js:206-213): if
`#timeout` is falsy, return; otherwise `clearTimeout(#timeout)`, reset
`#timeout` to the falsy `0`, and `_send({ack:true})` (`u`, `uJ` are that
send's draws). -/
def onUnsubscribe (cfg : Config) (u uJ : ℚ) (h : Handler) (w : World) :
    Handler × World :=
  match h.timeout with
  | none => (h, w)
  | some id =>
    ({ h with timeout := none }, send cfg u uJ .ack (clearTimeout id w))

/-- `SensorHandler.stop` (sensor-handler.js:77-84): clear `#timeout` and
`#death` when they are set. The fields themselves are not reset, and the
corruption timer's handle was never stored, so only these two ids are
cleared. -/
def Handler.stop (h : Handler) (w : World) : World :=
  let w1 := match h.timeout with
    | some id => clearTimeout id w
    | none => w
  match h.death with
  | some id => clearTimeout id w1
  | none => w1

/-- `SensorHandler._scheduleDeath` (sensor-handler.js:95-113). `u` is the
`Math.random()` draw of the lifetime:
`secs = (Math.random()*timeToLive + 5).toFixed(0)`. Two timers are armed:
the corruption callback after `secs*5000` ms — its `setTimeout` handle is
discarded — and the death callback after `secs*15000` ms, whose handle
overwrites `#death`. -/
def scheduleDeath (cfg : Config) (u : ℚ) (h : Handler) (w : World) :
    Handler × World :=
  let secs : ℚ := jsRound (u * cfg.timeToLive + 5)
  let w1 := (setTimeout .corruption (secs * 5000) w).2
  let q := setTimeout .death (secs * 15000) w1
  ({ h with death := some q.1 }, q.2)

/-- `SensorHandler.start` (sensor-handler.js:86-93): arm the fault
simulation only when `failures` is set and `timeToLive > 0`. -/
def Handler.start (cfg : Config) (u : ℚ) (h : Handler) (w : World) :
    Handler × World :=
  if cfg.failures ∧ 0 < cfg.timeToLive then scheduleDeath cfg u h w
  else (h, w)

/-- `sensors[i].state = ERROR`: replace record `i`'s state in place,
leaving every other record untouched. -/
def setError : List SensorRecord → Nat → List SensorRecord
  | [], _ => []
  | r :: rs, 0 => { r with state := ERROR } :: rs
  | r :: rs, n + 1 => r :: setError rs n

/-- `var sensorDead = Number((Math.random()*(sensors.length-1)).toFixed(0))`
(sensor-handler.js:100): the corruption victim's index, drawn from the
registry length (`u` is the `Math.random()` draw). For an empty registry
`length - 1` is `-1`, so the draw lands in `(-1, 0]`. -/
def sensorDead (u : ℚ) (n : Nat) : ℤ :=
  jsRound (u * ((n : ℚ) - 1))

/-- The corruption callback of `_scheduleDeath` (sensor-handler.js:99-103):
`sensorDead = Number((Math.random()*(sensors.length-1)).toFixed(0))`,
`sensors[sensorDead].state = ERROR`, then `this._scheduleDeath()` afresh
(redrawing `secs`, arming a new corruption timer and a new death timer).
`u` is the index draw, `uS` the fresh lifetime draw. Indexing outside the
registry yields `undefined`, and assigning `.state` on it throws a
`TypeError`: that fault is `none`. -/
def corruptionTick (cfg : Config) (u uS : ℚ) (h : Handler) (w : World) :
    Option (Handler × World) :=
  let i : ℤ := sensorDead u w.sensors.length
  if 0 ≤ i ∧ i.toNat < w.sensors.length then
    some (scheduleDeath cfg uS h { w with sensors := setError w.sensors i.toNat })
  else
    none

/-- The death callback of `_scheduleDeath` (sensor-handler.js:106-112):
`ws.close()`, `this.stop()`, emit the fatal event, `process.exit()`. -/
def deathTick (h : Handler) (w : World) : World :=
  let w1 := h.stop { w with closed := true }
  { w1 with exited := true }

/-- `SensorHandler.onMessage` (sensor-handler.js:60-75): run
`_validateMessage` (whose side effect on `sensors` lands even when it
throws); on any exception reply `{error: e.message}` through `_send`
(`u`, `uJ` are that send's draws, also used for the `ack` send of
unsubscribe); otherwise dispatch on `type`. -/
def onMessage (cfg : Config) (u uJ : ℚ) (msg : RawMsg)
    (h : Handler) (w : World) : Handler × World :=
  let v := validateMessage msg w.sensors
  let w1 := { w with sensors := v.sensors }
  match v.result with
  | .error e => (h, send cfg u uJ (.error e) w1)
  | .ok j =>
    if j.type = some "subscribe" then onSubscribe h w1
    else if j.type = some "unsubscribe" then onUnsubscribe cfg u uJ h w1
    else (h, w1)

/-! ## Frame lemmas about the send path -/

/-- Every `_send` call logs its message in the ghost `attempts` trace. -/
theorem send_attempts (cfg : Config) (u uJ : ℚ) (m : OutMsg) (w : World) :
    (send cfg u uJ m w).attempts = w.attempts ++ [m] := by
  unfold send setTimeout
  split <;> rfl

/-- `_send` never touches the shared registry. -/
theorem send_sensors (cfg : Config) (u uJ : ℚ) (m : OutMsg) (w : World) :
    (send cfg u uJ m w).sensors = w.sensors := by
  unfold send setTimeout
  split <;> rfl

/-- `_send` never touches `old_sensors_list`. -/
theorem send_oldList (cfg : Config) (u uJ : ℚ) (m : OutMsg) (w : World) :
    (send cfg u uJ m w).oldList = w.oldList := by
  unfold send setTimeout
  split <;> rfl

/-- Flushing the buffer logs exactly the flushed messages, in order. -/
theorem sendAll_attempts (cfg : Config) (ds : Nat → ℚ × ℚ) (ms : List OutMsg)
    (w : World) : (sendAll cfg ds ms w).attempts = w.attempts ++ ms := by
  induction ms generalizing ds w with
  | nil => simp [sendAll]
  | cons m ms ih => simp [sendAll, ih, send_attempts]

/-- Flushing the buffer never touches the shared registry. -/
theorem sendAll_sensors (cfg : Config) (ds : Nat → ℚ × ℚ) (ms : List OutMsg)
    (w : World) : (sendAll cfg ds ms w).sensors = w.sensors := by
  induction ms generalizing ds w with
  | nil => rfl
  | cons m ms ih => simp [sendAll, ih, send_sensors]

/-- Flushing the buffer never touches `old_sensors_list`. -/
theorem sendAll_oldList (cfg : Config) (ds : Nat → ℚ × ℚ) (ms : List OutMsg)
    (w : World) : (sendAll cfg ds ms w).oldList = w.oldList := by
  induction ms generalizing ds w with
  | nil => rfl
  | cons m ms ih => simp [sendAll, ih, send_oldList]

/-! ## Shape lemmas about one poll tick -/

/-- A poll tick that sees equal snapshots only re-arms the poll timer. -/
theorem pollTick_of_eq (cfg : Config) (now : Nat) (ds : Nat → ℚ × ℚ) (uR : ℚ)
    (h : Handler) (w : World) (he : w.oldList = w.sensors) :
    pollTick cfg now ds uR h w =
      ({ h with timeout := some w.nextId },
       { w with timers := w.timers ++ [⟨w.nextId, .poll, someMillis cfg uR⟩],
                nextId := w.nextId + 1 }) := by
  simp [pollTick, he, setTimeout]

/-- A poll tick that sees different snapshots: the trace of dispatched
messages, the registry and the overwritten shared snapshot. -/
theorem pollTick_attempts_of_ne (cfg : Config) (now : Nat) (ds : Nat → ℚ × ℚ)
    (uR : ℚ) (h : Handler) (w : World) (hne : w.oldList ≠ w.sensors) :
    (pollTick cfg now ds uR h w).2.attempts
      = w.attempts ++ h.buffer ++ [OutMsg.sensorsList now w.sensors] := by
  simp [pollTick, hne, sendList, setTimeout, sendAll_attempts]

/-- A poll tick that sees different snapshots overwrites the module-level
`old_sensors_list` with the current registry content. -/
theorem pollTick_oldList_of_ne (cfg : Config) (now : Nat) (ds : Nat → ℚ × ℚ)
    (uR : ℚ) (h : Handler) (w : World) (hne : w.oldList ≠ w.sensors) :
    (pollTick cfg now ds uR h w).2.oldList = w.sensors := by
  simp [pollTick, hne, sendList, setTimeout, sendAll_oldList]

/-- A poll tick never changes the registry itself. -/
theorem pollTick_sensors (cfg : Config) (now : Nat) (ds : Nat → ℚ × ℚ)
    (uR : ℚ) (h : Handler) (w : World) :
    (pollTick cfg now ds uR h w).2.sensors = w.sensors := by
  by_cases hne : w.oldList ≠ w.sensors
  · simp [pollTick, hne, sendList, setTimeout, sendAll_sensors]
  · simp [pollTick, hne, setTimeout]

/-! ## Claim theorems -/

/-- **C5** — Change detection is exact: on a poll tick while Subscribed
(empty buffer, as every reachable subscribed state has, since `_sendList`
always flushes and clears it), structurally equal snapshots produce no
update message and leave the last-seen snapshot alone; different snapshots
produce exactly one `{type:'sensors_list', dateTime, list}` message
carrying the new snapshot and overwrite the last-seen snapshot with it. -/
theorem C5_change_detection_exact (cfg : Config) (now : Nat)
    (ds : Nat → ℚ × ℚ) (uR : ℚ) (h : Handler) (w : World)
    (hbuf : h.buffer = []) :
    (w.oldList = w.sensors →
       (pollTick cfg now ds uR h w).2.attempts = w.attempts ∧
       (pollTick cfg now ds uR h w).2.oldList = w.oldList) ∧
    (w.oldList ≠ w.sensors →
       (pollTick cfg now ds uR h w).2.attempts
         = w.attempts ++ [OutMsg.sensorsList now w.sensors] ∧
       (pollTick cfg now ds uR h w).2.oldList = w.sensors) := by
  constructor
  · intro he
    rw [pollTick_of_eq cfg now ds uR h w he]
    exact ⟨rfl, rfl⟩
  · intro hne
    refine ⟨?_, pollTick_oldList_of_ne cfg now ds uR h w hne⟩
    rw [pollTick_attempts_of_ne cfg now ds uR h w hne, hbuf]
    simp

/-- Witness for C5: a subscribed handler over registry
`[{heatpump, heatpump1, OFF, 25}]` with a stale empty snapshot pushes
exactly one `sensors_list` update. -/
theorem C5_change_detection_exact_witness :
    (pollTick ⟨false, 100, 10, 0⟩ 7 (fun _ => (0, 0)) 0 ⟨some 0, none, []⟩
        ⟨[⟨"heatpump", "heatpump1", 0, 25⟩], [], [⟨0, .poll, 0⟩], 1, [], [],
         false, false⟩).2.attempts
      = [OutMsg.sensorsList 7 [⟨"heatpump", "heatpump1", 0, 25⟩]] := by
  have h := (C5_change_detection_exact ⟨false, 100, 10, 0⟩ 7 (fun _ => (0, 0))
    0 ⟨some 0, none, []⟩
    ⟨[⟨"heatpump", "heatpump1", 0, 25⟩], [], [⟨0, .poll, 0⟩], 1, [], [],
     false, false⟩ rfl).2 (by decide)
  simpa using h.1

/-- **C6** — Subscribe is idempotent: from Idle (`#timeout` falsy) the
handler arms exactly one poll timer with zero delay and becomes
Subscribed; a second subscribe while Subscribed is a complete no-op, so
exactly one poll timer stays armed. -/
theorem C6_subscribe_idempotent (h : Handler) (w : World) :
    (h.timeout = none →
       onSubscribe h w =
         ({ h with timeout := some w.nextId },
          { w with timers := w.timers ++ [⟨w.nextId, TimerKind.poll, 0⟩],
                   nextId := w.nextId + 1 }) ∧
       onSubscribe (onSubscribe h w).1 (onSubscribe h w).2
         = onSubscribe h w) ∧
    (∀ id, h.timeout = some id → onSubscribe h w = (h, w)) := by
  constructor
  · intro hn
    constructor
    · simp [onSubscribe, hn, setTimeout]
    · simp [onSubscribe, hn, setTimeout]
  · intro id hs
    simp [onSubscribe, hs]

/-- Witness for C6: a fresh handler subscribing arms the zero-delay poll
timer, and subscribing again changes nothing. -/
theorem C6_subscribe_idempotent_witness :
    onSubscribe Handler.init ⟨[], [], [], 0, [], [], false, false⟩
      = (⟨some 0, none, []⟩,
         ⟨[], [], [⟨0, TimerKind.poll, 0⟩], 1, [], [], false, false⟩) ∧
    onSubscribe ⟨some 0, none, []⟩
        ⟨[], [], [⟨0, TimerKind.poll, 0⟩], 1, [], [], false, false⟩
      = (⟨some 0, none, []⟩,
         ⟨[], [], [⟨0, TimerKind.poll, 0⟩], 1, [], [], false, false⟩) := by
  refine ⟨((C6_subscribe_idempotent Handler.init
    ⟨[], [], [], 0, [], [], false, false⟩).1 rfl).1, ?_⟩
  exact (C6_subscribe_idempotent ⟨some 0, none, []⟩
    ⟨[], [], [⟨0, TimerKind.poll, 0⟩], 1, [], [], false, false⟩).2 0 rfl

/-- **C7** — The send contract: with failures disabled the message is
delivered immediately; with failures enabled a draw below `errorProb`
defers the very same message behind a retry timer with delay
`jitter(frequencyMs, 0.2)` (no delivery now), and a draw at or above
`errorProb` delivers immediately. The armed timer carries the message
itself, so firing it re-enters `_send` with the same contract. -/
theorem C7_send_failure_contract (cfg : Config) (u uJ : ℚ) (msg : OutMsg)
    (w : World) :
    (cfg.failures = false →
       send cfg u uJ msg w =
         { w with attempts := w.attempts ++ [msg],
                  sent := w.sent ++ [msg] }) ∧
    (cfg.failures = true → u < cfg.errorProb →
       send cfg u uJ msg w =
         { w with attempts := w.attempts ++ [msg],
                  timers := w.timers ++
                    [⟨w.nextId, TimerKind.retry msg,
                      anIntegerWithPrecision cfg.frequency (1/5) uJ⟩],
                  nextId := w.nextId + 1 }) ∧
    (cfg.failures = true → ¬ u < cfg.errorProb →
       send cfg u uJ msg w =
         { w with attempts := w.attempts ++ [msg],
                  sent := w.sent ++ [msg] }) := by
  refine ⟨fun hf => ?_, fun hf hp => ?_, fun hf hp => ?_⟩
  · simp [send, hf]
  · simp [send, hf, hp, setTimeout, someMillis]
  · simp [send, hf, hp]

/-- Witness for C7: with `errorProb = 1/2`, the draw `0` defers an `ack`
behind a retry timer; with failures disabled the same send delivers. -/
theorem C7_send_failure_contract_witness :
    send ⟨true, 100, 10, 1/2⟩ 0 0 OutMsg.ack
        ⟨[], [], [], 0, [], [], false, false⟩
      = ⟨[], [], [⟨0, TimerKind.retry OutMsg.ack,
            anIntegerWithPrecision 100 (1/5) 0⟩], 1, [], [OutMsg.ack],
         false, false⟩ ∧
    send ⟨false, 100, 10, 1/2⟩ 0 0 OutMsg.ack
        ⟨[], [], [], 0, [], [], false, false⟩
      = ⟨[], [], [], 0, [OutMsg.ack], [OutMsg.ack], false, false⟩ := by
  constructor
  · have h := ((C7_send_failure_contract ⟨true, 100, 10, 1/2⟩ 0 0 OutMsg.ack
      ⟨[], [], [], 0, [], [], false, false⟩).2.1 rfl one_half_pos)
    simpa using h
  · have h := ((C7_send_failure_contract ⟨false, 100, 10, 1/2⟩ 0 0 OutMsg.ack
      ⟨[], [], [], 0, [], [], false, false⟩).1 rfl)
    simpa using h

/-- A `_send` call never adds or removes poll timers: it either leaves the
timer table alone or appends a retry timer, which is not poll-kind. -/
theorem send_pollTimers (cfg : Config) (u uJ : ℚ) (m : OutMsg) (w : World) :
    (send cfg u uJ m w).timers.filter (fun t => t.kind = TimerKind.poll)
      = w.timers.filter (fun t => t.kind = TimerKind.poll) := by
  unfold send setTimeout
  split
  · simp
  · rfl

/-- **C8** — Unsubscribe while Subscribed cancels the pending poll timer
(the poll timers left are exactly those not bearing the cancelled handle),
moves the handler to Idle and dispatches exactly one `{ack:true}`;
unsubscribe while Idle is a complete no-op (no ack, no change, no error). -/
theorem C8_unsubscribe_contract (cfg : Config) (u uJ : ℚ) (h : Handler)
    (w : World) :
    (h.timeout = none → onUnsubscribe cfg u uJ h w = (h, w)) ∧
    (∀ id, h.timeout = some id →
       (onUnsubscribe cfg u uJ h w).1 = { h with timeout := none } ∧
       (onUnsubscribe cfg u uJ h w).2.attempts = w.attempts ++ [OutMsg.ack] ∧
       (onUnsubscribe cfg u uJ h w).2.timers.filter
           (fun t => t.kind = TimerKind.poll)
         = (w.timers.filter (fun t => t.id ≠ id)).filter
             (fun t => t.kind = TimerKind.poll)) := by
  constructor
  · intro hn
    simp [onUnsubscribe, hn]
  · intro id hs
    refine ⟨?_, ?_, ?_⟩
    · simp [onUnsubscribe, hs]
    · simp [onUnsubscribe, hs, send_attempts, clearTimeout]
    · simp only [onUnsubscribe, hs]
      rw [send_pollTimers]
      rfl

/-- Witness for C8: unsubscribing a subscribed handler with poll timer 5
cancels it, acks once; unsubscribing a fresh handler does nothing. -/
theorem C8_unsubscribe_contract_witness :
    onUnsubscribe ⟨false, 100, 10, 0⟩ 0 0 Handler.init
        ⟨[], [], [], 0, [], [], false, false⟩
      = (Handler.init, ⟨[], [], [], 0, [], [], false, false⟩) ∧
    (onUnsubscribe ⟨false, 100, 10, 0⟩ 0 0 ⟨some 5, none, []⟩
        ⟨[], [], [⟨5, TimerKind.poll, 0⟩], 6, [], [], false, false⟩).1
      = ⟨none, none, []⟩ ∧
    (onUnsubscribe ⟨false, 100, 10, 0⟩ 0 0 ⟨some 5, none, []⟩
        ⟨[], [], [⟨5, TimerKind.poll, 0⟩], 6, [], [], false, false⟩).2.attempts
      = [OutMsg.ack] := by
  refine ⟨(C8_unsubscribe_contract ⟨false, 100, 10, 0⟩ 0 0 Handler.init
    ⟨[], [], [], 0, [], [], false, false⟩).1 rfl, ?_, ?_⟩
  · have h := (C8_unsubscribe_contract ⟨false, 100, 10, 0⟩ 0 0
      ⟨some 5, none, []⟩
      ⟨[], [], [⟨5, TimerKind.poll, 0⟩], 6, [], [], false, false⟩).2 5 rfl
    simpa using h.1
  · have h := (C8_unsubscribe_contract ⟨false, 100, 10, 0⟩ 0 0
      ⟨some 5, none, []⟩
      ⟨[], [], [⟨5, TimerKind.poll, 0⟩], 6, [], [], false, false⟩).2 5 rfl
    simpa using h.2.1

/-- **C9** counterexample — the claim fails: `old_sensors_list` is a single
module-level variable, not a per-handler field. Concretely: handlers A
(poll timer 0) and B (poll timer 1) are both subscribed, the registry was
updated while both last saw the old content; A's poll tick overwrites the
shared last-seen snapshot, and B's following tick then detects no change
and dispatches nothing, although B never pushed the new content. -/
theorem C9_shared_snapshot_counterexample :
    ((pollTick ⟨false, 100, 10, 0⟩ 0 (fun _ => (0, 0)) 0
        (⟨some 0, none, []⟩ : Handler)
        ⟨[⟨"heatpump", "heatpump1", 1, 25⟩], [⟨"heatpump", "heatpump1", 0, 25⟩],
         [⟨0, TimerKind.poll, 0⟩, ⟨1, TimerKind.poll, 0⟩], 2, [], [],
         false, false⟩).2.oldList
      ≠ [⟨"heatpump", "heatpump1", 0, 25⟩]) ∧
    (pollTick ⟨false, 100, 10, 0⟩ 0 (fun _ => (0, 0)) 0
        (⟨some 1, none, []⟩ : Handler)
        (pollTick ⟨false, 100, 10, 0⟩ 0 (fun _ => (0, 0)) 0
          (⟨some 0, none, []⟩ : Handler)
          ⟨[⟨"heatpump", "heatpump1", 1, 25⟩], [⟨"heatpump", "heatpump1", 0, 25⟩],
           [⟨0, TimerKind.poll, 0⟩, ⟨1, TimerKind.poll, 0⟩], 2, [], [],
           false, false⟩).2).2.attempts
      = (pollTick ⟨false, 100, 10, 0⟩ 0 (fun _ => (0, 0)) 0
          (⟨some 0, none, []⟩ : Handler)
          ⟨[⟨"heatpump", "heatpump1", 1, 25⟩], [⟨"heatpump", "heatpump1", 0, 25⟩],
           [⟨0, TimerKind.poll, 0⟩, ⟨1, TimerKind.poll, 0⟩], 2, [], [],
           false, false⟩).2.attempts := by
  constructor
  · rw [pollTick_oldList_of_ne _ _ _ _ _ _ (by decide)]
    decide
  · rw [pollTick_of_eq]
    rw [pollTick_oldList_of_ne _ _ _ _ _ _ (by decide), pollTick_sensors]

/-- **C9** amended — buffer and timer handles are per-handler private
fields, but the last-seen snapshot is the single module-level
`old_sensors_list` shared by every handler: a poll tick by one handler
that detects a change overwrites it globally (while never touching the
registry itself), so any other subscribed handler's subsequent tick
detects no change and dispatches nothing. -/
theorem C9_shared_snapshot_amended (cfg : Config) (now : Nat)
    (ds : Nat → ℚ × ℚ) (uR : ℚ) (hA hB : Handler) (w : World)
    (hch : w.oldList ≠ w.sensors) :
    (pollTick cfg now ds uR hA w).2.oldList = w.sensors ∧
    (pollTick cfg now ds uR hA w).2.sensors = w.sensors ∧
    (pollTick cfg now ds uR hB (pollTick cfg now ds uR hA w).2).2.attempts
      = (pollTick cfg now ds uR hA w).2.attempts := by
  refine ⟨pollTick_oldList_of_ne cfg now ds uR hA w hch,
          pollTick_sensors cfg now ds uR hA w, ?_⟩
  rw [pollTick_of_eq]
  rw [pollTick_oldList_of_ne cfg now ds uR hA w hch, pollTick_sensors]

/-- Witness for the amended C9: handler A's tick over a freshly changed
registry rewrites the shared snapshot, and handler B then stays silent. -/
theorem C9_shared_snapshot_amended_witness :
    ((pollTick ⟨true, 200, 10, 1⟩ 3 (fun _ => (1/2, 1/2)) (1/2)
        (⟨some 7, none, []⟩ : Handler)
        ⟨[⟨"heatpump", "hp9", -1, 20⟩], [], [⟨7, TimerKind.poll, 0⟩], 8, [],
         [], false, false⟩).2.oldList = [⟨"heatpump", "hp9", -1, 20⟩]) ∧
    (pollTick ⟨true, 200, 10, 1⟩ 3 (fun _ => (1/2, 1/2)) (1/2)
        (⟨some 8, none, []⟩ : Handler)
        (pollTick ⟨true, 200, 10, 1⟩ 3 (fun _ => (1/2, 1/2)) (1/2)
          (⟨some 7, none, []⟩ : Handler)
          ⟨[⟨"heatpump", "hp9", -1, 20⟩], [], [⟨7, TimerKind.poll, 0⟩], 8, [],
           [], false, false⟩).2).2.attempts
      = (pollTick ⟨true, 200, 10, 1⟩ 3 (fun _ => (1/2, 1/2)) (1/2)
          (⟨some 7, none, []⟩ : Handler)
          ⟨[⟨"heatpump", "hp9", -1, 20⟩], [], [⟨7, TimerKind.poll, 0⟩], 8, [],
           [], false, false⟩).2.attempts := by
  have h := C9_shared_snapshot_amended ⟨true, 200, 10, 1⟩ 3
    (fun _ => (1/2, 1/2)) (1/2) ⟨some 7, none, []⟩ ⟨some 8, none, []⟩
    ⟨[⟨"heatpump", "hp9", -1, 20⟩], [], [⟨7, TimerKind.poll, 0⟩], 8, [],
     [], false, false⟩ (by decide)
  exact ⟨h.1, h.2.2⟩

/-! ## The corruption callback's indexing -/

/-- Setting one record's state preserves the registry length. -/
theorem setError_length (l : List SensorRecord) (i : Nat) :
    (setError l i).length = l.length := by
  induction l generalizing i with
  | nil => rfl
  | cons r rs ih => cases i <;> simp [setError, ih]

/-- Setting record `i`'s state leaves every other position unchanged. -/
theorem setError_getElem?_of_ne (l : List SensorRecord) (i j : Nat)
    (hij : j ≠ i) : (setError l i)[j]? = l[j]? := by
  induction l generalizing i j with
  | nil => rfl
  | cons r rs ih =>
    cases i with
    | zero =>
      cases j with
      | zero => exact absurd rfl hij
      | succ j => simp [setError]
    | succ i =>
      cases j with
      | zero => simp [setError]
      | succ j => simpa [setError] using ih i j (by omega)

/-- Position `i` after `setError` holds the old record with state ERROR. -/
theorem setError_getElem?_self (l : List SensorRecord) (i : Nat) :
    (setError l i)[i]? = (l[i]?).map (fun r => { r with state := ERROR }) := by
  induction l generalizing i with
  | nil => rfl
  | cons r rs ih => cases i <;> simp [setError, ih]

/-- For a registry of `n ≥ 1` records and a draw `0 ≤ u < 1`, the
corruption index `Number((u*(n-1)).toFixed(0))` lies in `[0, n-1]`. -/
theorem sensorDead_bounds (n : Nat) (hn : 1 ≤ n) (u : ℚ)
    (hu0 : 0 ≤ u) (hu1 : u < 1) :
    0 ≤ sensorDead u n ∧ sensorDead u n < (n : ℤ) := by
  have h1n : (1 : ℚ) ≤ (n : ℚ) := by exact_mod_cast hn
  have hx0 : 0 ≤ u * ((n : ℚ) - 1) := mul_nonneg hu0 (by linarith)
  rw [sensorDead, jsRound_nonneg_eq _ hx0]
  constructor
  · exact Int.le_floor.mpr (by push_cast; linarith)
  · apply Int.floor_lt.mpr
    have hle : u * ((n : ℚ) - 1) ≤ (n : ℚ) - 1 :=
      mul_le_of_le_one_left (by linarith) (le_of_lt hu1)
    push_cast
    linarith

/-- **C10** — Whenever the corruption callback fires with a non-empty
registry and a draw `0 ≤ u < 1`, the computed index is within bounds,
exactly the record at that index has its state forced to ERROR, and the
registry's length and all other records are unchanged (the callback then
re-enters `_scheduleDeath`); with an empty registry the index is out of
bounds and the callback faults. -/
theorem C10_corruption_index_safety (cfg : Config) (u uS : ℚ) (h : Handler)
    (w : World) (hu0 : 0 ≤ u) (hu1 : u < 1) :
    (w.sensors ≠ [] →
       0 ≤ sensorDead u w.sensors.length ∧
       (sensorDead u w.sensors.length).toNat < w.sensors.length ∧
       corruptionTick cfg u uS h w
         = some (scheduleDeath cfg uS h
             { w with sensors :=
                 setError w.sensors (sensorDead u w.sensors.length).toNat }) ∧
       (setError w.sensors (sensorDead u w.sensors.length).toNat).length
         = w.sensors.length ∧
       (setError w.sensors
           (sensorDead u w.sensors.length).toNat)[(sensorDead u
             w.sensors.length).toNat]?
         = (w.sensors[(sensorDead u w.sensors.length).toNat]?).map
             (fun r => { r with state := ERROR }) ∧
       ∀ j, j ≠ (sensorDead u w.sensors.length).toNat →
         (setError w.sensors (sensorDead u w.sensors.length).toNat)[j]?
           = w.sensors[j]?) ∧
    (w.sensors = [] → corruptionTick cfg u uS h w = none) := by
  constructor
  · intro hne
    have hn : 1 ≤ w.sensors.length := List.length_pos.mpr hne
    have hb := sensorDead_bounds w.sensors.length hn u hu0 hu1
    have htn : (sensorDead u w.sensors.length).toNat < w.sensors.length := by
      omega
    refine ⟨hb.1, htn, ?_, setError_length _ _, setError_getElem?_self _ _,
      fun j hj => setError_getElem?_of_ne _ _ _ hj⟩
    rw [corruptionTick, if_pos ⟨hb.1, htn⟩]
  · intro he
    rw [corruptionTick, if_neg]
    rw [he]
    simp

/-- Witness for C10: one-record registry, draw 0 — the callback corrupts
record 0 and re-arms the fault timers. -/
theorem C10_corruption_index_safety_witness :
    corruptionTick ⟨true, 100, 10, 0⟩ 0 0 Handler.init
        ⟨[⟨"heatpump", "heatpump1", 0, 25⟩], [], [], 0, [], [], false, false⟩
      = some (scheduleDeath ⟨true, 100, 10, 0⟩ 0 Handler.init
          ⟨setError [⟨"heatpump", "heatpump1", 0, 25⟩] (sensorDead 0 1).toNat,
           [], [], 0, [], [], false, false⟩) := by
  exact ((C10_corruption_index_safety ⟨true, 100, 10, 0⟩ 0 0 Handler.init
    ⟨[⟨"heatpump", "heatpump1", 0, 25⟩], [], [], 0, [], [], false, false⟩
    (le_refl 0) zero_lt_one).1 (by decide)).2.2.1

/-- **C1** — The claim fails on the code: a message with valid type and
target but no `list` field passes the type/target checks, then
`json.list !== null` holds (`undefined !== null`), so the registry is
spliced empty before `json.list.forEach` throws. `onMessage` does reply
with an `{error}` message and leaves the handler's subscription state
untouched, but the shared registry is not restored: it ends empty, not
identical to its pre-call content. -/
theorem C1_validation_error_clobbers_registry :
    (validateMessage (.parsed ⟨some "subscribe", some "heatpump", .absent⟩)
        [⟨"heatpump", "heatpump1", 0, 25⟩]).result
      = .error "TypeError: json.list is undefined" ∧
    (onMessage ⟨false, 100, 10, 0⟩ 0 0
        (.parsed ⟨some "subscribe", some "heatpump", .absent⟩) Handler.init
        ⟨[⟨"heatpump", "heatpump1", 0, 25⟩], [], [], 0, [], [], false,
         false⟩).1
      = Handler.init ∧
    (onMessage ⟨false, 100, 10, 0⟩ 0 0
        (.parsed ⟨some "subscribe", some "heatpump", .absent⟩) Handler.init
        ⟨[⟨"heatpump", "heatpump1", 0, 25⟩], [], [], 0, [], [], false,
         false⟩).2.sent
      = [OutMsg.error "TypeError: json.list is undefined"] ∧
    (onMessage ⟨false, 100, 10, 0⟩ 0 0
        (.parsed ⟨some "subscribe", some "heatpump", .absent⟩) Handler.init
        ⟨[⟨"heatpump", "heatpump1", 0, 25⟩], [], [], 0, [], [], false,
         false⟩).2.sensors
      = [] := by
  decide

/-- **C2** — The `list` contract as the code implements it: an explicit
`null` list validates and leaves the registry alone; a present list
replaces the registry wholesale; but an *absent* list — which the claim
groups with `null` — does not validate (a `TypeError` is thrown) and
empties the registry instead of leaving it unchanged. -/
theorem C2_list_field_replacement :
    validateMessage (.parsed ⟨some "subscribe", some "heatpump", .null⟩)
        [⟨"heatpump", "hp2", 1, 30⟩]
      = ⟨.ok ⟨some "subscribe", some "heatpump", .null⟩,
         [⟨"heatpump", "hp2", 1, 30⟩]⟩ ∧
    validateMessage (.parsed ⟨some "subscribe", some "heatpump",
        .present [⟨"heatpump", "hp3", 0, 20⟩]⟩) [⟨"heatpump", "hp2", 1, 30⟩]
      = ⟨.ok ⟨some "subscribe", some "heatpump",
           .present [⟨"heatpump", "hp3", 0, 20⟩]⟩,
         [⟨"heatpump", "hp3", 0, 20⟩]⟩ ∧
    validateMessage (.parsed ⟨some "unsubscribe", some "heatpump", .absent⟩)
        [⟨"heatpump", "hp2", 1, 30⟩]
      = ⟨.error "TypeError: json.list is undefined", []⟩ := by
  decide

/-- Filtering twice with the same predicate is filtering once. -/
theorem filter_self_idem {α : Type} (p : α → Bool) (l : List α) :
    (l.filter p).filter p = l.filter p := by
  induction l with
  | nil => rfl
  | cons x l ih => by_cases hp : p x <;> simp [List.filter_cons, hp, ih]

/-- Re-running a pair of filters over its own output changes nothing. -/
theorem filter_pair_idem {α : Type} (p q : α → Bool) (l : List α) :
    (((l.filter q).filter p).filter q).filter p = (l.filter q).filter p := by
  simp only [List.filter_filter]
  apply List.filter_congr
  intro a _
  cases p a <;> cases q a <;> rfl

/-- `stop()` is idempotent: it only clears the two stored handles, so a
second call filters the timer table by the same ids again. -/
theorem stop_idem (h : Handler) (w : World) :
    h.stop (h.stop w) = h.stop w := by
  unfold Handler.stop clearTimeout
  cases h.timeout <;> cases h.death <;>
    simp [filter_self_idem, -List.filter_filter,
      filter_pair_idem (fun t : Timer => !decide (t.id = _)) _ _]

/-- **C3** — The claim fails on the code: after `start()` with fault
simulation active, `stop()` clears only the `#timeout` and `#death`
handles; the corruption timer's handle was never stored (line 99 discards
it), so the corruption timer is still armed after `stop()` and will fire.
The idempotence half of the claim does hold. -/
theorem C3_stop_leaks_corruption_timer :
    ((Handler.start ⟨true, 100, 10, 0⟩ (1/2) Handler.init
        ⟨[⟨"heatpump", "heatpump1", 0, 25⟩], [], [], 0, [], [], false,
         false⟩).1.stop
      (Handler.start ⟨true, 100, 10, 0⟩ (1/2) Handler.init
        ⟨[⟨"heatpump", "heatpump1", 0, 25⟩], [], [], 0, [], [], false,
         false⟩).2).timers.map (fun t => (t.id, t.kind))
      = [(0, TimerKind.corruption)] ∧
    ∀ (h : Handler) (w : World), h.stop (h.stop w) = h.stop w := by
  refine ⟨?_, stop_idem⟩
  rw [Handler.start]
  split
  · rfl
  · next hcon => exact absurd ⟨rfl, by norm_num⟩ hcon

/-- **C4** — The claim fails on the code: every `_scheduleDeath` call arms
both a corruption timer (its handle discarded) and a death timer; the
corruption callback re-enters `_scheduleDeath`, so each corruption firing
arms an additional death timer with a freshly drawn period `secs`, and the
previously armed death timer stays in the timer table (only the `#death`
field is overwritten, `clearTimeout` is never called on it). -/
theorem C4_corruption_rearms_death (cfg : Config) (u uS : ℚ) (h : Handler)
    (w : World) (hu0 : 0 ≤ u) (hu1 : u < 1) (hne : w.sensors ≠ []) :
    (scheduleDeath cfg uS h w).2.timers
      = w.timers ++
        [⟨w.nextId, TimerKind.corruption,
          (jsRound (uS * cfg.timeToLive + 5) : ℚ) * 5000⟩,
         ⟨w.nextId + 1, TimerKind.death,
          (jsRound (uS * cfg.timeToLive + 5) : ℚ) * 15000⟩] ∧
    (scheduleDeath cfg uS h w).1.death = some (w.nextId + 1) ∧
    ∃ r, corruptionTick cfg u uS h w = some r ∧
      r.2.timers
        = w.timers ++
          [⟨w.nextId, TimerKind.corruption,
            (jsRound (uS * cfg.timeToLive + 5) : ℚ) * 5000⟩,
           ⟨w.nextId + 1, TimerKind.death,
            (jsRound (uS * cfg.timeToLive + 5) : ℚ) * 15000⟩] ∧
      r.1.death = some (w.nextId + 1) := by
  have hn : 1 ≤ w.sensors.length := List.length_pos.mpr hne
  have hb := sensorDead_bounds w.sensors.length hn u hu0 hu1
  have htn : (sensorDead u w.sensors.length).toNat < w.sensors.length := by
    omega
  refine ⟨?_, rfl,
    ⟨scheduleDeath cfg uS h
      { w with sensors :=
          setError w.sensors (sensorDead u w.sensors.length).toNat },
     ?_, ?_, rfl⟩⟩
  · simp [scheduleDeath, setTimeout]
  · rw [corruptionTick, if_pos ⟨hb.1, htn⟩]
  · simp [scheduleDeath, setTimeout]

/-- Witness for C4: a handler already tracking death timer 1 goes through
one corruption firing; afterwards the old death timer 1 is still armed
next to the fresh corruption timer 2 and the new death timer 3. -/
theorem C4_corruption_rearms_death_witness :
    ∃ r, corruptionTick ⟨true, 100, 10, 0⟩ 0 (1/2)
        (⟨none, some 1, []⟩ : Handler)
        ⟨[⟨"heatpump", "heatpump1", 0, 25⟩], [],
         [⟨1, TimerKind.death, 150000⟩], 2, [], [], false, false⟩
      = some r ∧
      r.2.timers
        = [⟨1, TimerKind.death, 150000⟩] ++
          [⟨2, TimerKind.corruption, (jsRound (1/2 * 10 + 5) : ℚ) * 5000⟩,
           ⟨3, TimerKind.death, (jsRound (1/2 * 10 + 5) : ℚ) * 15000⟩] ∧
      r.1.death = some 3 := by
  exact (C4_corruption_rearms_death ⟨true, 100, 10, 0⟩ 0 (1/2)
    ⟨none, some 1, []⟩
    ⟨[⟨"heatpump", "heatpump1", 0, 25⟩], [],
     [⟨1, TimerKind.death, 150000⟩], 2, [], [], false, false⟩
    (le_refl 0) zero_lt_one (by decide)).2.2
